import Mathlib

/-!
Shallow embedding of the worker HTTP API layer of presto-oxidized
(src/presto-oxidized/src/server/api.rs) and theorems checking the
specification's claims about it.

The file models the route handlers of api.rs. Types imported by api.rs
from other crates or modules (TaskId, TaskUpdateRequest, the task manager,
the memory manager, NodeStatus, ...) are opaque to the API layer; they are
embedded as opaque wrapper structures or as abstract function fields of
the application-state model. External effectful library calls that the
handlers make (serde_json deserialization, SystemTime::now) are turned
into explicit handler inputs. Each handler returns the HTTP response it
builds together with the list of task-manager calls it performed, so that
claims about which manager operation a request invokes are statable.
-/

namespace PrestoOxidized

/-- Opaque coordinator-assigned task identifier (external type TaskId). -/
structure TaskId where
  id : String
  deriving DecidableEq, Repr

/-- Opaque task-update payload (external type TaskUpdateRequest); api.rs never
inspects its fields, only passes it through to the task manager. -/
structure TaskUpdateRequest where
  raw : String
  deriving DecidableEq, Repr

/-- Memory pool identifier, built from the path segment (MemoryPoolId(String)). -/
structure MemoryPoolId where
  name : String
  deriving DecidableEq, Repr

/-- Opaque snapshot returned by memory_manager.get_info(). -/
structure MemoryManagerInfo where
  raw : String
  deriving DecidableEq, Repr

/-- Opaque snapshot returned by memory_manager.get_pool_info(pool). -/
structure MemoryPoolInfo where
  raw : String
  deriving DecidableEq, Repr

/-- Opaque deserialized body of POST /memory (external type
MemoryPoolAssignmentsRequest); the handler binds it to an unused variable. -/
structure MemoryPoolAssignmentsRequest where
  raw : String
  deriving DecidableEq, Repr

/-- Opaque task snapshot returned by the task-manager info-shaped operations. -/
structure TaskInfo where
  raw : String
  deriving DecidableEq, Repr

/-- Opaque task status returned by task_manager.get_task_status. -/
structure TaskStatus where
  raw : String
  deriving DecidableEq, Repr

/-- Opaque node lifecycle state (state.node_state). -/
structure NodeState where
  raw : String
  deriving DecidableEq, Repr

/-- Opaque node status produced by TryInto of NodeStatus from the app state. -/
structure NodeStatus where
  raw : String
  deriving DecidableEq, Repr

/-- The ServerInfo value built by the GET /info handler, field for field as in
api.rs; uptime is an optional duration in milliseconds. -/
structure ServerInfo where
  coordinator : Bool
  environment : String
  nodeVersion : String
  uptime : Option Nat
  starting : Bool
  deriving DecidableEq, Repr

/-- Result of an external deserialization call (serde_json::from_slice). -/
inductive ParseResult (α : Type) where
  | ok (value : α)
  | err (msg : String)
  deriving DecidableEq, Repr

/-- Bodies a handler of api.rs can attach to its HTTP response: nothing
(.finish()), a plain-text body, or the JSON serialization of a typed value. -/
inductive ResponseBody where
  | empty
  | text (s : String)
  | jsonMemoryInfo (i : MemoryManagerInfo)
  | jsonPoolInfo (i : MemoryPoolInfo)
  | jsonServerInfo (i : ServerInfo)
  | jsonNodeState (s : NodeState)
  | jsonNodeStatus (s : NodeStatus)
  | jsonTaskInfo (i : TaskInfo)
  | jsonTaskStatus (s : TaskStatus)
  | jsonTaskInfoList (l : List TaskInfo)
  deriving DecidableEq, Repr

/-- An HTTP response: numeric status code plus body. In api.rs, Ok() is 200,
NotFound() is 404, InternalServerError() is 500, NotImplemented() is 501. -/
structure HttpResponse where
  status : Nat
  body : ResponseBody
  deriving DecidableEq, Repr

/-- A call the API layer can make on the task manager, with the exact
arguments it forwards. Recording these calls makes claims about which
operation a request invokes, and with which flags, statable. -/
inductive ManagerCall where
  | update_task (id : TaskId) (rq : TaskUpdateRequest) (summarize : Bool)
  | get_task_status (id : TaskId)
  | get_task_info (id : TaskId) (summarize : Bool)
  | cancel_task (id : TaskId) (summarize : Bool)
  | abort_task (id : TaskId) (summarize : Bool)
  | get_all_task_info (summarize : Bool)
  deriving DecidableEq, Repr

/-- Abstract model of the external TaskManager: one result function per
operation the API layer calls. The implementation is outside api.rs, so the
model is parametric in what each call returns. -/
structure TaskManagerModel where
  update_task : TaskId → TaskUpdateRequest → Bool → TaskInfo
  get_task_status : TaskId → TaskStatus
  get_task_info : TaskId → Bool → TaskInfo
  cancel_task : TaskId → Bool → TaskInfo
  abort_task : TaskId → Bool → TaskInfo
  get_all_task_info : Bool → List TaskInfo

/-- Model of the AppState the handlers receive via web::Data: the snapshots
and collaborator operations the handlers of api.rs actually read. -/
structure AppStateModel where
  memory_manager_info : MemoryManagerInfo
  memory_manager_pool_info : MemoryPoolId → MemoryPoolInfo
  node_environment : String
  node_version : String
  node_start_time : Nat
  node_state : NodeState
  node_status : ParseResult NodeStatus
  task_manager : TaskManagerModel

/-- Query parameters of the task routes, exactly as the serde struct
TaskRequestParameters in api.rs: both optional, holding the raw value text. -/
structure TaskRequestParameters where
  summarize : Option String
  abort : Option String
  deriving DecidableEq, Repr

/-- Models SystemTime::now().duration_since(earlier).ok(): some (now - earlier)
when now is at or past earlier, none when the clock reads before it. -/
def duration_since (now_ms earlier_ms : Nat) : Option Nat :=
  if earlier_ms ≤ now_ms then some (now_ms - earlier_ms) else none

namespace Api

/-- POST /memory: binds the deserialized body to an unused variable and
returns 200 with memory_manager.get_info(). -/
def post_memory (state : AppStateModel) (_request : MemoryPoolAssignmentsRequest) :
    HttpResponse :=
  { status := 200, body := .jsonMemoryInfo state.memory_manager_info }

/-- GET /memory/\x7bpool_id\x7d: 200 with get_pool_info of the path segment. -/
def get_memory_pool (state : AppStateModel) (pool_id : String) : HttpResponse :=
  { status := 200,
    body := .jsonPoolInfo (state.memory_manager_pool_info (MemoryPoolId.mk pool_id)) }

/-- GET /info: builds a ServerInfo with coordinator and starting hardcoded to
false, the environment and version from the state, and the uptime from
duration_since of the recorded start time; always 200. The current wall-clock
time (SystemTime::now) is an explicit input. -/
def get_info (state : AppStateModel) (now_ms : Nat) : HttpResponse :=
  let info : ServerInfo :=
    { coordinator := false
      environment := state.node_environment
      nodeVersion := state.node_version
      uptime := duration_since now_ms state.node_start_time
      starting := false }
  { status := 200, body := .jsonServerInfo info }

/-- GET /info/state: 200 with a clone of the node state. -/
def get_state (state : AppStateModel) : HttpResponse :=
  { status := 200, body := .jsonNodeState state.node_state }

/-- PUT /info/state: takes no state and unconditionally answers 501
NotImplemented with an empty body. -/
def put_state : HttpResponse :=
  { status := 501, body := .empty }

/-- PUT /info/coordinator (handler named get_coordinator in the source):
unconditionally 404 NotFound, empty body; no coordinator logic exists. -/
def get_coordinator : HttpResponse :=
  { status := 404, body := .empty }

/-- GET /status: 200 with the NodeStatus conversion of the state; the TryInto
failure propagates out of the handler as an error (the question-mark operator),
modelled as the err branch. -/
def get_status (state : AppStateModel) : ParseResult HttpResponse :=
  match state.node_status with
  | .ok ns => .ok { status := 200, body := .jsonNodeStatus ns }
  | .err e => .err e

/-- HEAD /status (handler status_ping): 200, empty body. -/
def status_ping : HttpResponse :=
  { status := 200, body := .empty }

/-- POST /task/\x7btask_id\x7d: deserializes the raw bytes as a
TaskUpdateRequest (the serde_json result is the explicit input). On failure it
returns 500 with a diagnostic text and makes no task-manager call; on success
it calls update_task with the summarize-presence flag and returns 200 with the
resulting TaskInfo. -/
def post_task (state : AppStateModel) (task_id : TaskId)
    (request : ParseResult TaskUpdateRequest) (params : TaskRequestParameters) :
    HttpResponse × List ManagerCall :=
  match request with
  | .err e =>
      ({ status := 500, body := .text ("failed to deserialize json response " ++ e) }, [])
  | .ok rq =>
      let summarize := params.summarize.isSome
      let info := state.task_manager.update_task task_id rq summarize
      ({ status := 200, body := .jsonTaskInfo info },
       [ManagerCall.update_task task_id rq summarize])

/-- GET /task/\x7btask_id\x7d/status: calls get_task_status and returns 200
with its result, whatever it is. -/
def get_task_status (state : AppStateModel) (task_id : TaskId) :
    HttpResponse × List ManagerCall :=
  let status := state.task_manager.get_task_status task_id
  ({ status := 200, body := .jsonTaskStatus status },
   [ManagerCall.get_task_status task_id])

/-- GET /task/\x7btask_id\x7d: calls get_task_info with the
summarize-presence flag and returns 200 with its result. -/
def get_task_info (state : AppStateModel) (task_id : TaskId)
    (params : TaskRequestParameters) : HttpResponse × List ManagerCall :=
  let info := state.task_manager.get_task_info task_id params.summarize.isSome
  ({ status := 200, body := .jsonTaskInfo info },
   [ManagerCall.get_task_info task_id params.summarize.isSome])

/-- DELETE /task/\x7btask_id\x7d: matches on abort-presence; the true arm of
the source calls cancel_task and the false arm calls abort_task (transcribed
exactly as written in api.rs). Returns 200 with the resulting TaskInfo. -/
def delete_task (state : AppStateModel) (task_id : TaskId)
    (params : TaskRequestParameters) : HttpResponse × List ManagerCall :=
  let summ := params.summarize.isSome
  match params.abort.isSome with
  | true =>
      let info := state.task_manager.cancel_task task_id summ
      ({ status := 200, body := .jsonTaskInfo info },
       [ManagerCall.cancel_task task_id summ])
  | false =>
      let info := state.task_manager.abort_task task_id summ
      ({ status := 200, body := .jsonTaskInfo info },
       [ManagerCall.abort_task task_id summ])

/-- GET /task (handler get_tasks): 200 with get_all_task_info of the
summarize-presence flag. -/
def get_tasks (state : AppStateModel) (params : TaskRequestParameters) :
    HttpResponse × List ManagerCall :=
  let infos := state.task_manager.get_all_task_info params.summarize.isSome
  ({ status := 200, body := .jsonTaskInfoList infos },
   [ManagerCall.get_all_task_info params.summarize.isSome])

/-- GET /task/async/.../results/.../\x7btoken\x7d: stub answering 501. -/
def get_buffer_token : HttpResponse :=
  { status := 501, body := .empty }

/-- GET /task/async/.../results/.../\x7btoken\x7d/acknowledge: stub, 501. -/
def get_buffer_token_ack : HttpResponse :=
  { status := 501, body := .empty }

/-- DELETE /task/async/.../results/.../\x7btoken\x7d: stub answering 501. -/
def delete_buffer_token : HttpResponse :=
  { status := 501, body := .empty }

end Api

/-- HTTP methods used by the route attributes of api.rs. -/
inductive Method where
  | GET
  | POST
  | PUT
  | DELETE
  | HEAD
  deriving DecidableEq, Repr

/-- One name per handler function defined in api.rs, registered or not. -/
inductive RouteHandler where
  | post_memory
  | get_memory_pool
  | get_status
  | get_info
  | get_state
  | put_state
  | get_coordinator
  | get_task_info
  | get_task_status
  | post_task
  | delete_task
  | status_ping
  | get_tasks
  | get_buffer_token
  | get_buffer_token_ack
  | delete_buffer_token
  deriving DecidableEq, Repr

/-- The method and path pattern each handler is attributed with in api.rs. -/
def routeOf : RouteHandler → Method × String
  | .post_memory => (.POST, "/memory")
  | .get_memory_pool => (.GET, "/memory/\x7bpool_id\x7d")
  | .get_status => (.GET, "/status")
  | .get_info => (.GET, "/info")
  | .get_state => (.GET, "/info/state")
  | .put_state => (.PUT, "/info/state")
  | .get_coordinator => (.PUT, "/info/coordinator")
  | .get_task_info => (.GET, "/task/\x7btask_id\x7d")
  | .get_task_status => (.GET, "/task/\x7btask_id\x7d/status")
  | .post_task => (.POST, "/task/\x7btask_id\x7d")
  | .delete_task => (.DELETE, "/task/\x7btask_id\x7d")
  | .status_ping => (.HEAD, "/status")
  | .get_tasks => (.GET, "/task")
  | .get_buffer_token =>
      (.GET, "/task/async/\x7btask_id\x7d/results/\x7bbuffer_id\x7d/\x7btoken\x7d")
  | .get_buffer_token_ack =>
      (.GET, "/task/async/\x7btask_id\x7d/results/\x7bbuffer_id\x7d/\x7btoken\x7d/acknowledge")
  | .delete_buffer_token =>
      (.DELETE, "/task/async/\x7btask_id\x7d/results/\x7bbuffer_id\x7d/\x7btoken\x7d")

/-- The services registered by worker_config, in source order; a handler not
in this list is not reachable through this configuration. -/
def worker_config : List RouteHandler :=
  [ .post_memory
  , .get_memory_pool
  , .get_status
  , .get_info
  , .get_state
  , .put_state
  , .get_coordinator
  , .get_task_info
  , .get_task_status
  , .post_task
  , .delete_task ]

/-- A concrete task-manager model for closed counterexamples: the registry an
empty worker starts with, knowing no tasks; every lookup answers its default
snapshot for the requested id. -/
def emptyRegistryManager : TaskManagerModel :=
  { update_task := fun _ _ _ => TaskInfo.mk "default-info"
    get_task_status := fun _ => TaskStatus.mk "default-status"
    get_task_info := fun _ _ => TaskInfo.mk "default-info"
    cancel_task := fun _ _ => TaskInfo.mk "default-info"
    abort_task := fun _ _ => TaskInfo.mk "default-info"
    get_all_task_info := fun _ => [] }

/-- A concrete application state for closed counterexamples. -/
def exampleState : AppStateModel :=
  { memory_manager_info := MemoryManagerInfo.mk "mm"
    memory_manager_pool_info := fun _ => MemoryPoolInfo.mk "pool"
    node_environment := "test"
    node_version := "0.1"
    node_start_time := 0
    node_state := NodeState.mk "ACTIVE"
    node_status := .ok (NodeStatus.mk "ok")
    task_manager := emptyRegistryManager }

/-- A task id no task manager of exampleState has ever seen. -/
def unknownTaskId : TaskId :=
  TaskId.mk "20990101_000000_00000_xxxxx.9.9.9"

/-- Claim C1: the claim states that DELETE with the abort parameter absent
invokes the cancel operation and with it present invokes the abort operation.
The source does the opposite: the match arm for abort-present calls
cancel_task and the arm for abort-absent calls abort_task, so after
DELETE with abort the task would be canceled, not aborted. This theorem
evaluates the transcribed handler on both shapes of request, over every
application state and parameter value. -/
theorem C1_delete_task_dispatch_swapped :
    ∀ (st : AppStateModel) (tid : TaskId) (v : String),
    (Api.delete_task st tid { summarize := none, abort := some v }).2
        = [ManagerCall.cancel_task tid false]
    ∧ (Api.delete_task st tid { summarize := none, abort := none }).2
        = [ManagerCall.abort_task tid false] := by
  intro st tid v
  exact ⟨rfl, rfl⟩

/-- Claim C2, counterexample: the handlers for GET /task (get_tasks),
HEAD /status (status_ping) and the three data-plane result endpoints are not
in the registered route set built by worker_config, and the data-plane
handlers answer 501 NotImplemented. -/
theorem C2_missing_routes_counterexample :
    RouteHandler.get_tasks ∉ worker_config
    ∧ RouteHandler.status_ping ∉ worker_config
    ∧ RouteHandler.get_buffer_token ∉ worker_config
    ∧ RouteHandler.get_buffer_token_ack ∉ worker_config
    ∧ RouteHandler.delete_buffer_token ∉ worker_config
    ∧ Api.get_buffer_token.status = 501
    ∧ Api.get_buffer_token_ack.status = 501
    ∧ Api.delete_buffer_token.status = 501 := by
  decide

/-- Claim C2 as amended: worker_config registers exactly the eleven
memory/info/status/control-plane services, in source order; the GET /task and
HEAD /status handlers exist with those routes but are unregistered, and the
three data-plane handlers are unregistered stubs answering 501 with an empty
body. -/
theorem C2_registered_routes :
    worker_config =
      [ RouteHandler.post_memory, RouteHandler.get_memory_pool,
        RouteHandler.get_status, RouteHandler.get_info, RouteHandler.get_state,
        RouteHandler.put_state, RouteHandler.get_coordinator,
        RouteHandler.get_task_info, RouteHandler.get_task_status,
        RouteHandler.post_task, RouteHandler.delete_task ]
    ∧ routeOf RouteHandler.get_tasks = (Method.GET, "/task")
    ∧ routeOf RouteHandler.status_ping = (Method.HEAD, "/status")
    ∧ Api.get_buffer_token = { status := 501, body := ResponseBody.empty }
    ∧ Api.get_buffer_token_ack = { status := 501, body := ResponseBody.empty }
    ∧ Api.delete_buffer_token = { status := 501, body := ResponseBody.empty } := by
  decide

/-- Claim C3: when the body of POST /task fails to deserialize, the handler
answers 500 InternalServerError with a diagnostic naming the failure, and the
task manager is not called at all (no update, state untouched). -/
theorem C3_post_task_deserialize_error :
    ∀ (st : AppStateModel) (tid : TaskId) (e : String)
      (params : TaskRequestParameters),
    (Api.post_task st tid (ParseResult.err e) params).1.status = 500
    ∧ (Api.post_task st tid (ParseResult.err e) params).1.body
        = ResponseBody.text ("failed to deserialize json response " ++ e)
    ∧ (Api.post_task st tid (ParseResult.err e) params).2 = [] := by
  intro st tid e params
  exact ⟨rfl, rfl, rfl⟩

/-- Claim C4, counterexample: on a worker state whose task manager is the
empty registry, a GET /task/status request for a never-seen task id is
answered with HTTP 200 carrying the manager result, not with a 404 not-found
response, refuting the claim at this concrete input. -/
theorem C4_unknown_task_counterexample :
    (Api.get_task_status exampleState unknownTaskId).1.status = 200
    ∧ (Api.get_task_status exampleState unknownTaskId).1.status ≠ 404 := by
  exact ⟨rfl, by decide⟩

/-- Claim C4 as amended: for every state and task id, GET /task/.../status and
GET /task/... answer HTTP 200 wrapping whatever the task manager returns; an
unknown id is never mapped to a not-found HTTP status by this layer. -/
theorem C4_task_lookup_always_200 :
    ∀ (st : AppStateModel) (tid : TaskId) (params : TaskRequestParameters),
    (Api.get_task_status st tid).1
        = { status := 200,
            body := ResponseBody.jsonTaskStatus
              (st.task_manager.get_task_status tid) }
    ∧ (Api.get_task_info st tid params).1
        = { status := 200,
            body := ResponseBody.jsonTaskInfo
              (st.task_manager.get_task_info tid params.summarize.isSome) } := by
  intro st tid params
  exact ⟨rfl, rfl⟩

/-- Claim C5: PUT /info/state unconditionally answers 501 NotImplemented with
an empty body; the handler reads no state and performs no call, as its model
is a constant independent of the application state. -/
theorem C5_put_state_not_implemented :
    Api.put_state = { status := 501, body := ResponseBody.empty } := by
  rfl

/-- Claim C6: PUT /info/coordinator unconditionally answers 404 NotFound with
an empty body; the handler is a constant, so no coordinator logic and no
manager call is ever invoked. -/
theorem C6_coordinator_not_found :
    Api.get_coordinator = { status := 404, body := ResponseBody.empty } := by
  rfl

/-- Claim C7: GET /info always answers 200 with a ServerInfo whose coordinator
and starting fields are false, whose environment and version come from the
node state, and whose uptime is the clock value minus the recorded start time
(absent when the clock reads before the start time). -/
theorem C7_get_info_static :
    ∀ (st : AppStateModel) (now_ms : Nat),
    Api.get_info st now_ms =
      { status := 200
        body := ResponseBody.jsonServerInfo
          { coordinator := false
            environment := st.node_environment
            nodeVersion := st.node_version
            uptime :=
              if st.node_start_time ≤ now_ms
              then some (now_ms - st.node_start_time) else none
            starting := false } } := by
  intro st now_ms
  rfl

/-- Claim C8: POST /memory ignores the deserialized pool-assignment body; for
any two well-formed bodies the response is the same, namely 200 with the
memory manager info snapshot of the current state. -/
theorem C8_post_memory_independent_of_body :
    ∀ (st : AppStateModel) (r1 r2 : MemoryPoolAssignmentsRequest),
    Api.post_memory st r1 = Api.post_memory st r2
    ∧ Api.post_memory st r1
        = { status := 200,
            body := ResponseBody.jsonMemoryInfo st.memory_manager_info } := by
  intro st r1 r2
  exact ⟨rfl, rfl⟩

/-- Claim C9: once the body deserializes (for POST) the four task
control-plane handlers always answer HTTP 200, for every state, id,
parameter combination and task-manager outcome; no manager result is mapped
to a non-200 status by this layer. -/
theorem C9_control_plane_always_200 :
    ∀ (st : AppStateModel) (tid : TaskId) (rq : TaskUpdateRequest)
      (params : TaskRequestParameters),
    (Api.post_task st tid (ParseResult.ok rq) params).1.status = 200
    ∧ (Api.get_task_info st tid params).1.status = 200
    ∧ (Api.get_task_status st tid).1.status = 200
    ∧ (Api.delete_task st tid params).1.status = 200 := by
  intro st tid rq params
  refine ⟨rfl, rfl, rfl, ?_⟩
  rcases params with ⟨s, a⟩
  cases a <;> rfl

/-- Claim C10: the summarize and abort query parameters act purely by
presence: the boolean forwarded to the task manager is isSome of the
parameter, so any supplied value, including a value reading false, yields
true, and an absent parameter yields false; the abort branch of DELETE is
likewise chosen by presence alone. -/
theorem C10_query_params_by_presence :
    ∀ (st : AppStateModel) (tid : TaskId) (rq : TaskUpdateRequest)
      (params : TaskRequestParameters) (v w : String),
    (Api.get_task_info st tid params).2
        = [ManagerCall.get_task_info tid params.summarize.isSome]
    ∧ (Api.post_task st tid (ParseResult.ok rq) params).2
        = [ManagerCall.update_task tid rq params.summarize.isSome]
    ∧ (Api.get_task_info st tid { summarize := some "false", abort := none }).2
        = [ManagerCall.get_task_info tid true]
    ∧ (Api.delete_task st tid { summarize := some v, abort := some w }).2
        = [ManagerCall.cancel_task tid true]
    ∧ (Api.delete_task st tid { summarize := some "0", abort := none }).2
        = [ManagerCall.abort_task tid true]
    ∧ (Api.get_tasks st { summarize := none, abort := none }).2
        = [ManagerCall.get_all_task_info false] := by
  intro st tid rq params v w
  exact ⟨rfl, rfl, rfl, rfl, rfl, rfl⟩

end PrestoOxidized
